import Mathlib

/-!
Verification of the networking substrate of a browser-to-ADB gateway.

Byte buffers are modelled as `List Nat` whose elements are bytes (< 256);
JavaScript `Uint8Array` stores and `DataView` writers truncate their inputs
(`ToUint8` / `ToUint32` / `& 0xffff`), which we model with explicit `% 2^w`.
JavaScript numbers that stay integral are modelled as `Nat`/`Int`; the single
fractional quantity (touch pressure) is modelled as `ℚ`.
-/

/-! ## Byte-framing primitives (client `adbStub.ts` and control encoders) -/

/-- JavaScript `x >>> 0` (ToUint32) on a non-negative integral number. -/
def toUint32 (n : Nat) : Nat := n % 4294967296

/-- JavaScript `x & 0xffff` on a non-negative integral number below 2^31. -/
def toUint16 (n : Nat) : Nat := n % 65536

/-- `DataView.setUint32(…, n, true)`: little-endian bytes of `ToUint32 n`. -/
def u32le (n : Nat) : List Nat :=
  [toUint32 n % 256, toUint32 n / 256 % 256, toUint32 n / 65536 % 256, toUint32 n / 16777216 % 256]

/-- `DataView.setUint16(…, n, true)`: little-endian bytes of `n & 0xffff`. -/
def u16le (n : Nat) : List Nat :=
  [toUint16 n % 256, toUint16 n / 256 % 256]

/-- `DataView.setUint32(…, n, false)`: big-endian bytes of `ToUint32 n`. -/
def be32 (n : Nat) : List Nat :=
  [n / 16777216 % 256, n / 65536 % 256, n / 256 % 256, n % 256]

/-- `DataView.setUint16(…, n, false)`: big-endian bytes of a value below 2^16. -/
def be16 (n : Nat) : List Nat :=
  [n / 256 % 256, n % 256]

/-- `DataView.getUint32(…, true)`: read a little-endian u32 from four bytes. -/
def readU32le (b0 b1 b2 b3 : Nat) : Nat :=
  b0 + 256 * b1 + 65536 * b2 + 16777216 * b3

/-! ## Multiplexer outer frame (`MuxMessage` in `adbStub.ts`) -/

/-- Frame types of the multiplexer outer protocol (`MuxMessageType`). -/
def MuxCreateChannel : Nat := 4
def MuxCloseChannel : Nat := 8
def MuxRawBinaryData : Nat := 16
def MuxRawStringData : Nat := 32
def MuxData : Nat := 64

/-- A parsed multiplexer outer frame: `(type, channel id, payload)`. -/
structure MuxMessage where
  type : Nat
  channelId : Nat
  payload : List Nat
  deriving DecidableEq, Repr

namespace MuxMessage

/-- `MuxMessage.createBuffer`: 5-byte header `[type: u8][channelId: u32-LE]`
followed by the payload.  The `Uint8Array` store truncates the type byte. -/
def createBuffer (type : Nat) (channelId : Nat) (payload : List Nat) : List Nat :=
  type % 256 :: (u32le channelId ++ payload)

/-- `MuxMessage.parse`: rejects buffers shorter than 5 bytes, reads the type
byte, the little-endian channel id, and slices the remainder as the payload. -/
def parse (buffer : List Nat) : Option MuxMessage :=
  match buffer with
  | t :: b0 :: b1 :: b2 :: b3 :: rest => some ⟨t, readU32le b0 b1 b2 b3, rest⟩
  | _ => none

end MuxMessage

/-! ## Touch control encoder (`encodeTouchMessage` in the client control module) -/

/-- `clamp(n, min, max)` from the control module. -/
def clampQ (n mn mx : ℚ) : ℚ := if n < mn then mn else if n > mx then mx else n

/-- JavaScript `Math.round` on a non-negative number: half-up rounding. -/
def jsRound (q : ℚ) : ℤ := ⌊q + 1 / 2⌋

/-- The `pressureU16` computation: `Math.round(clamp(pressure01 ?? 1, 0, 1) * 0xffff) & 0xffff`. -/
def pressureU16 (pressure01 : Option ℚ) : Nat :=
  (jsRound (clampQ (pressure01.getD 1) 0 1 * 65535)).toNat % 65536

/-- `encodeTouchMessage`: the source allocates `ArrayBuffer(29)` but its
writes cover only offsets 0..27, so the last byte stays zero. -/
def encodeTouchMessage (action pointerId x y screenW screenH : Nat)
    (pressure01 : Option ℚ) (buttons : Nat) : List Nat :=
  [2, action % 256] ++ be32 (toUint32 0) ++ be32 (toUint32 pointerId) ++
    be32 (toUint32 x) ++ be32 (toUint32 y) ++ be16 (toUint16 screenW) ++
    be16 (toUint16 screenH) ++ be16 (pressureU16 pressure01) ++ be32 (toUint32 buttons) ++ [0]

/-! ## Claim C1: multiplexer frame round-trip -/

/-- Claim C1: for every frame type in {4, 8, 16, 32, 64}, channel id below 2^32
and arbitrary payload, the writer's buffer has layout
`[type: u8][channel_id: u32-LE][payload...]` and parsing it recovers exactly
the same `(type, channel_id, payload)` triple. -/
theorem C1_mux_frame_roundtrip (t cid : Nat) (payload : List Nat)
    (ht : t = MuxCreateChannel ∨ t = MuxCloseChannel ∨ t = MuxRawBinaryData ∨
      t = MuxRawStringData ∨ t = MuxData)
    (hcid : cid < 4294967296) :
    MuxMessage.parse (MuxMessage.createBuffer t cid payload) = some ⟨t, cid, payload⟩ ∧
    MuxMessage.createBuffer t cid payload = t :: (u32le cid ++ payload) := by
  have ht' : t < 256 := by
    rcases ht with h | h | h | h | h <;> simp [h, MuxCreateChannel, MuxCloseChannel,
      MuxRawBinaryData, MuxRawStringData, MuxData]
  have htm : t % 256 = t := Nat.mod_eq_of_lt ht'
  constructor
  · simp only [MuxMessage.createBuffer, u32le, toUint32, readU32le, List.cons_append,
      List.nil_append, MuxMessage.parse, Option.some.injEq, MuxMessage.mk.injEq]
    refine ⟨htm, ?_, trivial⟩
    omega
  · simp only [MuxMessage.createBuffer, htm]

/-- Witness for C1 at a concrete frame. -/
theorem C1_mux_frame_roundtrip_witness :
    (MuxRawBinaryData = MuxCreateChannel ∨ MuxRawBinaryData = MuxCloseChannel ∨
      MuxRawBinaryData = MuxRawBinaryData ∨ MuxRawBinaryData = MuxRawStringData ∨
      MuxRawBinaryData = MuxData) ∧
    (7 : Nat) < 4294967296 ∧
    (MuxMessage.parse (MuxMessage.createBuffer MuxRawBinaryData 7 [9, 250, 0]) =
      some ⟨MuxRawBinaryData, 7, [9, 250, 0]⟩ ∧
    MuxMessage.createBuffer MuxRawBinaryData 7 [9, 250, 0] =
      MuxRawBinaryData :: (u32le 7 ++ [9, 250, 0])) :=
  ⟨by decide, by decide,
    C1_mux_frame_roundtrip MuxRawBinaryData 7 [9, 250, 0] (by decide) (by decide)⟩

/-! ## Claim C2: touch control message layout -/

/-- Helper: the default pressure (absent, hence 1) encodes to 0xFFFF. -/
theorem pressureU16_none_eq : pressureU16 none = 65535 := by
  have h1 : clampQ ((none : Option ℚ).getD 1) 0 1 = 1 := by norm_num [clampQ]
  have h2 : jsRound ((1 : ℚ) * 65535) = 65535 := by
    unfold jsRound
    refine Int.floor_eq_iff.mpr ⟨by norm_num, by norm_num⟩
  unfold pressureU16
  rw [h1, h2]
  decide

/-- Counterexample for C2: the claim's expected byte string for the DOWN touch
at (100, 200) on a 500x500 viewport has 28 bytes, but the encoder emits a
29-byte buffer (the final byte of `ArrayBuffer(29)` is never written and stays
zero), so the two differ. -/
theorem C2_touch_encode_counterexample :
    encodeTouchMessage 0 0 100 200 500 500 none 0 ≠
      [0x02, 0x00, 0, 0, 0, 0, 0, 0, 0, 0, 0, 0, 0, 0x64, 0, 0, 0, 0xC8,
        0x01, 0xF4, 0x01, 0xF4, 0xFF, 0xFF, 0, 0, 0, 0] := by
  intro h
  have hlen := congrArg List.length h
  simp [encodeTouchMessage, be32, be16] at hlen

/-- Claim C2 (amended): the touch encoder produces exactly 29 bytes:
the big-endian layout `[type=2][action u8][u32 zero][u32 pointerId][u32 x]
[u32 y][u16 screenW][u16 screenH][u16 round(pressure*65535)][u32 buttons]`
(28 bytes, pressure defaulting to 1 when absent) followed by one zero padding
byte; the DOWN at (100, 200) on a 500x500 viewport with default pressure and
no buttons encodes to `02 00 00000000 00000000 00000064 000000C8 01F4 01F4
FFFF 00000000` followed by `00`. -/
theorem C2_touch_encode_layout (action pointerId x y screenW screenH buttons : Nat)
    (pressure01 : Option ℚ)
    (ha : action < 256) (hp : pointerId < 4294967296)
    (hx : x < 4294967296) (hy : y < 4294967296)
    (hw : screenW < 65536) (hh : screenH < 65536) (hb : buttons < 4294967296)
    (hq : ∀ q ∈ pressure01, 0 ≤ q ∧ q ≤ 1) :
    encodeTouchMessage action pointerId x y screenW screenH pressure01 buttons =
      [2, action] ++ be32 0 ++ be32 pointerId ++ be32 x ++ be32 y ++
        be16 screenW ++ be16 screenH ++
        be16 ((jsRound ((pressure01.getD 1) * 65535)).toNat) ++ be32 buttons ++ [0] ∧
    (encodeTouchMessage action pointerId x y screenW screenH pressure01 buttons).length = 29 ∧
    encodeTouchMessage 0 0 100 200 500 500 none 0 =
      [0x02, 0x00, 0, 0, 0, 0, 0, 0, 0, 0, 0, 0, 0, 0x64, 0, 0, 0, 0xC8,
        0x01, 0xF4, 0x01, 0xF4, 0xFF, 0xFF, 0, 0, 0, 0] ++ [0] := by
  have hclamp : clampQ ((pressure01.getD 1)) 0 1 = pressure01.getD 1 := by
    rcases pressure01 with _ | q
    · simp [clampQ]
    · rcases hq q rfl with ⟨h0, h1⟩
      simp only [Option.getD_some, clampQ]
      rw [if_neg (by exact not_lt.mpr h0), if_neg (by exact not_lt.mpr h1)]
  have hple : (jsRound ((pressure01.getD 1) * 65535)).toNat < 65536 := by
    have hq1 : pressure01.getD 1 ≤ 1 := by
      rcases pressure01 with _ | q
      · simp
      · exact (hq q rfl).2
    have hfl : jsRound ((pressure01.getD 1) * 65535) < 65536 := by
      have hlt : ((pressure01.getD 1) * 65535 + 1 / 2 : ℚ) < 65536 := by nlinarith
      exact Int.floor_lt.mpr (by exact_mod_cast hlt)
    omega
  have hconc : encodeTouchMessage 0 0 100 200 500 500 none 0 =
      [0x02, 0x00, 0, 0, 0, 0, 0, 0, 0, 0, 0, 0, 0, 0x64, 0, 0, 0, 0xC8,
        0x01, 0xF4, 0x01, 0xF4, 0xFF, 0xFF, 0, 0, 0, 0] ++ [0] := by
    simp only [encodeTouchMessage, pressureU16_none_eq]
    decide
  refine ⟨?_, ?_, hconc⟩
  · simp only [encodeTouchMessage, pressureU16, hclamp, toUint32, toUint16,
      Nat.mod_eq_of_lt ha, Nat.mod_eq_of_lt hp, Nat.mod_eq_of_lt hx, Nat.mod_eq_of_lt hy,
      Nat.mod_eq_of_lt hw, Nat.mod_eq_of_lt hh, Nat.mod_eq_of_lt hb,
      Nat.mod_eq_of_lt hple, Nat.zero_mod]
  · simp [encodeTouchMessage, be32, be16]

/-- Witness for C2 (amended) at the concrete DOWN-touch input of the claim. -/
theorem C2_touch_encode_layout_witness :
    ((0 : Nat) < 256 ∧ (0 : Nat) < 4294967296 ∧ (100 : Nat) < 4294967296 ∧
      (200 : Nat) < 4294967296 ∧ (500 : Nat) < 65536 ∧ (500 : Nat) < 65536 ∧
      (0 : Nat) < 4294967296 ∧ (∀ q ∈ (none : Option ℚ), 0 ≤ q ∧ q ≤ 1)) ∧
    (encodeTouchMessage 0 0 100 200 500 500 none 0).length = 29 :=
  ⟨⟨by decide, by decide, by decide, by decide, by decide, by decide, by decide,
      by simp⟩,
    (C2_touch_encode_layout 0 0 100 200 500 500 0 none (by decide) (by decide) (by decide)
      (by decide) (by decide) (by decide) (by decide) (by simp)).2.1⟩

/-! ## WebSocket ready states and the proxy's upstream close/error handlers
(`WebsocketProxy.init` in the server middleware) -/

inductive WsReadyState where
  | CONNECTING
  | OPEN
  | CLOSING
  | CLOSED
  deriving DecidableEq, Repr

/-- A `ws.close(code, reason?)` call issued on the downstream socket. -/
structure CloseAction where
  code : Nat
  reason : Option String
  deriving DecidableEq, Repr

/-- Handler `remoteSocket.onclose`: if the downstream socket is OPEN, close it
with 1000 when the upstream close was clean and 4010 otherwise. -/
def onUpstreamClose (downstream : WsReadyState) (wasClean : Bool) : Option CloseAction :=
  if downstream = WsReadyState.OPEN then
    some ⟨if wasClean then 1000 else 4010, none⟩
  else none

/-- Handler `remoteSocket.onerror`: if the downstream socket is OPEN, close it
with 4011 carrying the error message. -/
def onUpstreamError (downstream : WsReadyState) (message : String) : Option CloseAction :=
  if downstream = WsReadyState.OPEN then
    some ⟨4011, some message⟩
  else none

/-! ## Claim C3: upstream close/error propagation -/

/-- Counterexample for C3: on a clean upstream close with the downstream OPEN,
the proxy closes the downstream with code 1000, not 4010 as claimed
(`this.ws.close(e.wasClean ? 1000 : 4010)`). -/
theorem C3_upstream_close_counterexample :
    onUpstreamClose WsReadyState.OPEN true = some ⟨1000, none⟩ ∧
    some (CloseAction.mk 1000 none) ≠ some (CloseAction.mk 4010 none) := by
  constructor
  · rfl
  · decide

/-- Claim C3 (amended): when the upstream socket closes cleanly the proxy
closes the downstream socket with code 1000; when it closes uncleanly, with
code 4010; when it errors, with code 4011 carrying the error message — in all
cases only if the downstream socket is still OPEN. -/
theorem C3_upstream_close_propagation (ds : WsReadyState) (msg : String) :
    (ds = WsReadyState.OPEN → onUpstreamClose ds true = some ⟨1000, none⟩) ∧
    (ds = WsReadyState.OPEN → onUpstreamClose ds false = some ⟨4010, none⟩) ∧
    (ds = WsReadyState.OPEN → onUpstreamError ds msg = some ⟨4011, some msg⟩) ∧
    (ds ≠ WsReadyState.OPEN →
      onUpstreamClose ds true = none ∧ onUpstreamClose ds false = none ∧
        onUpstreamError ds msg = none) := by
  refine ⟨fun h => ?_, fun h => ?_, fun h => ?_, fun h => ?_⟩ <;>
    simp [onUpstreamClose, onUpstreamError, h]

/-- Witness for C3 (amended) at the OPEN downstream state. -/
theorem C3_upstream_close_propagation_witness :
    (WsReadyState.OPEN = WsReadyState.OPEN) ∧
    onUpstreamClose WsReadyState.OPEN false = some ⟨4010, none⟩ ∧
    onUpstreamError WsReadyState.OPEN "boom" = some ⟨4011, some "boom"⟩ :=
  ⟨rfl, (C3_upstream_close_propagation WsReadyState.OPEN "boom").2.1 rfl,
    (C3_upstream_close_propagation WsReadyState.OPEN "boom").2.2.1 rfl⟩

/-! ## SyncService (`SyncService.ts`) -/

/-- The ECMAScript white-space and line-terminator code points removed by
`String.prototype.trim`. -/
def jsWhitespace (c : Char) : Bool :=
  [9, 10, 11, 12, 13, 32, 160, 5760, 8192, 8193, 8194, 8195, 8196, 8197, 8198,
    8199, 8200, 8201, 8202, 8232, 8233, 8239, 8287, 12288, 65279].contains c.toNat

/-- JavaScript `s.trim()`. -/
def jsTrim (s : String) : String :=
  String.mk (((s.toList.dropWhile jsWhitespace).reverse.dropWhile jsWhitespace).reverse)

/-- `Array.from(new Set(l))`: deduplicate keeping first occurrences. -/
def setFromArrayAux : List String → List String → List String
  | [], _ => []
  | a :: l, seen => if a ∈ seen then setFromArrayAux l seen else a :: setFromArrayAux l (a :: seen)

def setFromArray (l : List String) : List String := setFromArrayAux l []

/-- `SyncService.setMapping`: normalize targets and devices (trim, drop
empties, dedupe), then map every target to the cleaned device list minus the
target itself. -/
def setMapping (target devices : List String) : List (String × List String) :=
  let cleanedTargets := setFromArray ((target.map jsTrim).filter (· ≠ ""))
  let cleanedDevices := setFromArray ((devices.map jsTrim).filter (· ≠ ""))
  cleanedTargets.map (fun t => (t, cleanedDevices.filter (fun d => d ≠ t)))

/-- The stateful entry point first does `this.mapping.clear()` and then
rebuilds, so the result ignores the previous mapping entirely. -/
def setMappingState (prev : List (String × List String)) (target devices : List String) :
    List (String × List String) :=
  setMapping target devices

/-! ## Claim C8: setMapping normalization and the self-follower invariant -/

/-- Claim C8: after `setMapping(target, devices)` the mapping's keys are
exactly the trimmed, deduplicated, non-empty targets; each key maps to the
trimmed, deduplicated, non-empty device list with the target itself removed;
the previous mapping is fully replaced; and no source is its own follower. -/
theorem C8_setMapping_invariant (target devices : List String)
    (prev : List (String × List String)) :
    (setMapping target devices).map Prod.fst =
        setFromArray ((target.map jsTrim).filter (· ≠ "")) ∧
    (∀ t, t ∈ setFromArray ((target.map jsTrim).filter (· ≠ "")) →
      (t, (setFromArray ((devices.map jsTrim).filter (· ≠ ""))).filter (fun d => d ≠ t)) ∈
        setMapping target devices) ∧
    setMappingState prev target devices = setMapping target devices ∧
    (∀ p ∈ setMapping target devices, p.1 ∉ p.2) := by
  refine ⟨?_, ?_, rfl, ?_⟩
  · have h : ∀ l : List String,
        (l.map (fun t => (t, (setFromArray ((devices.map jsTrim).filter (· ≠ ""))).filter
          (fun d => d ≠ t)))).map Prod.fst = l := by
      intro l
      induction l with
      | nil => rfl
      | cons a l ih => rw [List.map_cons, List.map_cons, ih]
    exact h _
  · intro t ht
    simp only [setMapping, List.mem_map]
    exact ⟨t, ht, rfl⟩
  · intro p hp
    simp only [setMapping, List.mem_map] at hp
    obtain ⟨t, _, rfl⟩ := hp
    intro hmem
    have := (List.mem_filter.mp hmem).2
    simp at this

/-- Witness for C8 on concrete target/device lists with blanks, duplicates and
a self-reference. -/
theorem C8_setMapping_invariant_witness :
    ("A" ∈ setFromArray (([" A", "B", ""].map jsTrim).filter (· ≠ ""))) ∧
    ("A", (setFromArray ((["A", "B ", " C", "C", ""].map jsTrim).filter (· ≠ ""))).filter
        (fun d => d ≠ "A")) ∈ setMapping [" A", "B", ""] ["A", "B ", " C", "C", ""] :=
  ⟨by decide,
    (C8_setMapping_invariant [" A", "B", ""] ["A", "B ", " C", "C", ""] []).2.1 "A" (by decide)⟩

/-! ## Proxy release and the global sync mapping (`WebsocketProxy.release`) -/

/-- The global server state touched by `WebsocketProxy.release`. -/
structure GlobalState where
  sessions : List String
  statuses : List (String × String)
  syncMapping : List (String × List String)
  deriving DecidableEq, Repr

/-- `WebsocketProxy.release`: a no-op when already released; otherwise, when
the proxy has a session id, it removes the session from the registry, clears
the device's recording status, and calls `SyncService.getInstance().clear()`
— wiping the whole mapping; without a session id the global state is left
alone. -/
def proxyRelease (released : Bool) (sessionId : Option String) (g : GlobalState) : GlobalState :=
  if released then g
  else
    match sessionId with
    | some sid =>
      { sessions := g.sessions.filter (· ≠ sid),
        statuses := g.statuses.filter (fun p => p.1 ≠ sid),
        syncMapping := [] }
    | none => g

/-! ## Claim C10: release wipes the entire sync mapping -/

/-- Claim C10: releasing a proxy that has a session id empties the entire
global sync mapping — including entries between unrelated sessions — while
releasing a proxy without a session id leaves the mapping unchanged; the
concrete conjunct shows the mapping B→{C} vanishing when session A releases. -/
theorem C10_release_clears_sync (g : GlobalState) (sid : String) :
    (proxyRelease false (some sid) g).syncMapping = [] ∧
    (proxyRelease false none g).syncMapping = g.syncMapping ∧
    (proxyRelease false (some "A")
        ⟨["A", "B", "C"], [("B", "record")], [("B", ["C"])]⟩).syncMapping = [] := by
  exact ⟨rfl, rfl, rfl⟩

/-! ## ActionRecorder (`ActionRecorder.ts`)

WebSocket payloads reaching the server handlers are either UTF-16 strings or
byte buffers (`Buffer`, `Buffer[]`, `ArrayBuffer`); `ActionRecorder.encode`
stores strings verbatim and byte payloads in base64 (Node
`Buffer.toString('base64')`, standard padded alphabet). -/

inductive WsData where
  | str (s : String)
  | buf (bytes : List Nat)
  | bufList (parts : List (List Nat))
  | abuf (bytes : List Nat)
  deriving DecidableEq, Repr

/-- Standard base64 alphabet, as character codes ('A'..'Z', 'a'..'z',
'0'..'9', '+', '/'); 61 is the code of the padding character. -/
def b64code (n : Nat) : Nat :=
  if n < 26 then 65 + n
  else if n < 52 then 97 + (n - 26)
  else if n < 62 then 48 + (n - 52)
  else if n = 62 then 43
  else 47

/-- Inverse alphabet lookup on character codes. -/
def b64valCode (c : Nat) : Nat :=
  if 65 ≤ c ∧ c ≤ 90 then c - 65
  else if 97 ≤ c ∧ c ≤ 122 then c - 97 + 26
  else if 48 ≤ c ∧ c ≤ 57 then c - 48 + 52
  else if c = 43 then 62
  else if c = 47 then 63
  else 0

/-- Base64 encoding of a byte list, as character codes, with `=` padding. -/
def b64EncodeCodes : List Nat → List Nat
  | [] => []
  | [a] => [b64code (a / 4), b64code (a % 4 * 16), 61, 61]
  | [a, b] => [b64code (a / 4), b64code (a % 4 * 16 + b / 16), b64code (b % 16 * 4), 61]
  | a :: b :: c :: rest =>
    b64code (a / 4) :: b64code (a % 4 * 16 + b / 16) :: b64code (b % 16 * 4 + c / 64) ::
      b64code (c % 64) :: b64EncodeCodes rest

/-- Base64 decoding of a character-code list (padding-aware). -/
def b64DecodeCodes : List Nat → List Nat
  | c1 :: c2 :: c3 :: c4 :: rest =>
    if c4 = 61 then
      if c3 = 61 then [b64valCode c1 * 4 + b64valCode c2 / 16]
      else [b64valCode c1 * 4 + b64valCode c2 / 16,
        b64valCode c2 % 16 * 16 + b64valCode c3 / 4]
    else
      (b64valCode c1 * 4 + b64valCode c2 / 16) ::
        (b64valCode c2 % 16 * 16 + b64valCode c3 / 4) ::
        (b64valCode c3 % 4 * 64 + b64valCode c4) :: b64DecodeCodes rest
  | _ => []

/-- Node `buffer.toString('base64')`. -/
def base64Encode (bytes : List Nat) : String :=
  String.mk ((b64EncodeCodes bytes).map Char.ofNat)

/-- Node `Buffer.from(s, 'base64')`. -/
def base64Decode (s : String) : List Nat :=
  b64DecodeCodes (s.toList.map Char.toNat)

/-- One recorded message `{at, data, binary}` (times in ms). -/
structure RecordedMessage where
  «at» : Int
  data : String
  binary : Bool
  deriving DecidableEq, Repr

/-- Recorder state: `startedAt`, optional `pausedAt`, accumulated
`pausedDuration`, and the captured messages. -/
structure ActionRecorder where
  startedAt : Int
  pausedAt : Option Int
  pausedDuration : Int
  messages : List RecordedMessage
  deriving DecidableEq, Repr

namespace ActionRecorder

/-- `ActionRecorder.encode`: strings stay verbatim (`isBinary = false`);
`Buffer`/`Buffer[]`/`ArrayBuffer` payloads become base64 (`isBinary = true`). -/
def encode : WsData → String × Bool
  | .str s => (s, false)
  | .buf b => (base64Encode b, true)
  | .bufList parts => (base64Encode parts.flatten, true)
  | .abuf b => (base64Encode b, true)

/-- `getElapsed`: `now - startedAt - pausedDuration - (now - pausedAt if paused)`. -/
def getElapsed (r : ActionRecorder) (now : Int) : Int :=
  now - r.startedAt - r.pausedDuration -
    (match r.pausedAt with
     | some p => now - p
     | none => 0)

/-- `capture(data)`: append `{at: getElapsed(), data, binary}`. -/
def capture (r : ActionRecorder) (now : Int) (data : WsData) : ActionRecorder :=
  { r with messages := r.messages ++ [⟨r.getElapsed now, (encode data).1, (encode data).2⟩] }

/-- `pause()`: record `pausedAt` unless already paused. -/
def pause (r : ActionRecorder) (now : Int) : ActionRecorder :=
  match r.pausedAt with
  | some _ => r
  | none => { r with pausedAt := some now }

/-- `resume()`: fold the paused interval into `pausedDuration`. -/
def resume (r : ActionRecorder) (now : Int) : ActionRecorder :=
  match r.pausedAt with
  | none => r
  | some p => { r with pausedDuration := r.pausedDuration + (now - p), pausedAt := none }

/-- `decodeMessage`: base64-decode binary entries, strings pass through. -/
def decodeMessage (m : RecordedMessage) : WsData :=
  if m.binary then .buf (base64Decode m.data) else .str m.data

end ActionRecorder

/-- The on-disk recording JSON `{id, remote, createdAt, name?, meta?, messages}`
(the `meta` object is opaque string data and irrelevant here; JSON round-trips
all fields verbatim). -/
structure RecordingFile where
  id : String
  remote : String
  createdAt : String
  name : Option String
  messages : List RecordedMessage
  deriving DecidableEq, Repr

namespace ActionRecorder

/-- `persist()`: serialize the recorder verbatim (messages copied in order). -/
def persist (r : ActionRecorder) (id remote createdAt : String) (name : Option String) :
    RecordingFile :=
  ⟨id, remote, createdAt, name, r.messages⟩

/-- `load()`'s message normalization: re-build each entry field by field
(`Number(item.at) || 0`, `String(item.data)`, `Boolean(item.binary)` are the
identity on values produced by `persist`) and sort by `at` ascending.  Node's
`Array.prototype.sort` is stable, as is `List.insertionSort`, and any two
stable sorts under the same comparator agree. -/
def loadMessages (raw : List RecordedMessage) : List RecordedMessage :=
  List.insertionSort (fun a b => a.«at» ≤ b.«at»)
    (raw.map (fun m => ⟨m.«at», m.data, m.binary⟩))

/-- `load()` applied to a parsed recording file. -/
def load (f : RecordingFile) : RecordingFile :=
  { f with messages := loadMessages f.messages }

end ActionRecorder

/-! ## The proxy's capture guard (`WebsocketProxy.onSocketMessage`) -/

/-- The slice of proxy state participating in recording. -/
structure ProxyRecordingState where
  recordingPaused : Bool
  recorder : ActionRecorder
  deriving DecidableEq, Repr

/-- `onSocketMessage`: capture only when `!this.recordingPaused`. -/
def onSocketMessageCapture (s : ProxyRecordingState) (now : Int) (data : WsData) :
    ProxyRecordingState :=
  if s.recordingPaused then s else { s with recorder := s.recorder.capture now data }

/-- `WebsocketProxy.pause()` on a recording session: set the flag and pause
the recorder. -/
def proxyPauseRecording (s : ProxyRecordingState) (now : Int) : ProxyRecordingState :=
  { recordingPaused := true, recorder := s.recorder.pause now }

/-- `WebsocketProxy.resume()` on a paused recording session. -/
def proxyResumeRecording (s : ProxyRecordingState) (now : Int) : ProxyRecordingState :=
  { recordingPaused := false, recorder := s.recorder.resume now }

/-! ## Base64 round-trip -/

theorem b64valCode_b64code : ∀ n < 64, b64valCode (b64code n) = n := by decide

theorem b64code_ne_61 : ∀ n < 64, b64code n ≠ 61 := by decide

theorem b64code_lt_128 : ∀ n < 64, b64code n < 128 := by decide

theorem b64_codes_roundtrip : ∀ bs : List Nat, (∀ x ∈ bs, x < 256) →
    b64DecodeCodes (b64EncodeCodes bs) = bs := by
  intro bs
  induction bs using b64EncodeCodes.induct with
  | case1 => intro _; rfl
  | case2 a =>
    intro h
    have ha : a < 256 := h a (by simp)
    have h1 : b64DecodeCodes (b64EncodeCodes [a]) =
        [b64valCode (b64code (a / 4)) * 4 + b64valCode (b64code (a % 4 * 16)) / 16] := rfl
    rw [h1, b64valCode_b64code _ (by omega), b64valCode_b64code _ (by omega)]
    simp only [List.cons.injEq, and_true]
    omega
  | case3 a b =>
    intro h
    have ha : a < 256 := h a (by simp)
    have hb : b < 256 := h b (by simp)
    have h1 : b64DecodeCodes (b64EncodeCodes [a, b]) =
        if b64code (b % 16 * 4) = 61 then
          [b64valCode (b64code (a / 4)) * 4 + b64valCode (b64code (a % 4 * 16 + b / 16)) / 16]
        else [b64valCode (b64code (a / 4)) * 4 +
            b64valCode (b64code (a % 4 * 16 + b / 16)) / 16,
          b64valCode (b64code (a % 4 * 16 + b / 16)) % 16 * 16 +
            b64valCode (b64code (b % 16 * 4)) / 4] := rfl
    rw [h1, if_neg (b64code_ne_61 (b % 16 * 4) (by omega)),
      b64valCode_b64code _ (by omega), b64valCode_b64code _ (by omega),
      b64valCode_b64code _ (by omega)]
    simp only [List.cons.injEq, and_true]
    omega
  | case4 a b c rest ih =>
    intro h
    have ha : a < 256 := h a (by simp)
    have hb : b < 256 := h b (by simp)
    have hc : c < 256 := h c (by simp)
    have hrest : ∀ x ∈ rest, x < 256 := fun x hx => h x (by simp [hx])
    have h1 : b64EncodeCodes (a :: b :: c :: rest) =
        b64code (a / 4) :: b64code (a % 4 * 16 + b / 16) ::
          b64code (b % 16 * 4 + c / 64) :: b64code (c % 64) :: b64EncodeCodes rest := rfl
    have h2 : ∀ c1 c2 c3 c4 tail, c4 ≠ 61 →
        b64DecodeCodes (c1 :: c2 :: c3 :: c4 :: tail) =
          (b64valCode c1 * 4 + b64valCode c2 / 16) ::
            (b64valCode c2 % 16 * 16 + b64valCode c3 / 4) ::
            (b64valCode c3 % 4 * 64 + b64valCode c4) :: b64DecodeCodes tail := by
      intro c1 c2 c3 c4 tail hne
      simp only [b64DecodeCodes, if_neg hne]
    rw [h1, h2 _ _ _ _ _ (b64code_ne_61 (c % 64) (by omega)),
      b64valCode_b64code _ (by omega), b64valCode_b64code _ (by omega),
      b64valCode_b64code _ (by omega), b64valCode_b64code _ (by omega), ih hrest]
    simp only [List.cons.injEq, and_true]
    omega

theorem b64EncodeCodes_lt_128 : ∀ bs : List Nat, (∀ x ∈ bs, x < 256) →
    ∀ c ∈ b64EncodeCodes bs, c < 128 := by
  intro bs
  induction bs using b64EncodeCodes.induct with
  | case1 => intro _ c hc; simp [b64EncodeCodes] at hc
  | case2 a =>
    intro h c hc
    have ha : a < 256 := h a (by simp)
    simp only [b64EncodeCodes, List.mem_cons, List.not_mem_nil, or_false] at hc
    rcases hc with rfl | rfl | rfl | rfl
    · exact b64code_lt_128 _ (by omega)
    · exact b64code_lt_128 _ (by omega)
    · omega
    · omega
  | case3 a b =>
    intro h c hc
    have ha : a < 256 := h a (by simp)
    have hb : b < 256 := h b (by simp)
    simp only [b64EncodeCodes, List.mem_cons, List.not_mem_nil, or_false] at hc
    rcases hc with rfl | rfl | rfl | rfl
    · exact b64code_lt_128 _ (by omega)
    · exact b64code_lt_128 _ (by omega)
    · exact b64code_lt_128 _ (by omega)
    · omega
  | case4 a b c rest ih =>
    intro h x hx
    have ha : a < 256 := h a (by simp)
    have hb : b < 256 := h b (by simp)
    have hc : c < 256 := h c (by simp)
    have hrest : ∀ y ∈ rest, y < 256 := fun y hy => h y (by simp [hy])
    have h1 : b64EncodeCodes (a :: b :: c :: rest) =
        b64code (a / 4) :: b64code (a % 4 * 16 + b / 16) ::
          b64code (b % 16 * 4 + c / 64) :: b64code (c % 64) :: b64EncodeCodes rest := rfl
    rw [h1] at hx
    simp only [List.mem_cons] at hx
    rcases hx with rfl | rfl | rfl | rfl | hx
    · exact b64code_lt_128 _ (by omega)
    · exact b64code_lt_128 _ (by omega)
    · exact b64code_lt_128 _ (by omega)
    · exact b64code_lt_128 _ (by omega)
    · exact ih hrest x hx

theorem char_toNat_ofNat_of_lt : ∀ k < 128, (Char.ofNat k).toNat = k := by decide

/-- Node base64: decoding an encoded byte list recovers it exactly. -/
theorem base64_roundtrip (bytes : List Nat) (h : ∀ x ∈ bytes, x < 256) :
    base64Decode (base64Encode bytes) = bytes := by
  unfold base64Decode base64Encode
  have htl : (String.mk ((b64EncodeCodes bytes).map Char.ofNat)).toList =
      (b64EncodeCodes bytes).map Char.ofNat := rfl
  rw [htl, List.map_map]
  have hmap : (b64EncodeCodes bytes).map (Char.toNat ∘ Char.ofNat) = b64EncodeCodes bytes := by
    have := List.map_congr_left (l := b64EncodeCodes bytes)
      (f := Char.toNat ∘ Char.ofNat) (g := id)
      (fun c hc => char_toNat_ofNat_of_lt c (b64EncodeCodes_lt_128 bytes h c hc))
    rw [this, List.map_id]
  rw [hmap]
  exact b64_codes_roundtrip bytes h

/-! ## Claim C4: recorder timestamps and the pause guard -/

/-- Claim C4: `capture` records `now - started_at - paused_duration -
(now - paused_at if paused)`; frames arriving while the proxy's recording is
paused are not captured at all; after a pause at `p` and resume at `q`, a
frame at `t` is recorded at `(p - started_at - prior_paused_duration) +
(t - q)`; and the concrete schedule start 0 / pause 200 / resume 500 /
frame 600 yields `at = 300`. -/
theorem C4_recorder_timestamps :
    (∀ (r : ActionRecorder) (now : Int) (d : WsData),
      (r.capture now d).messages = r.messages ++
        [⟨now - r.startedAt - r.pausedDuration -
            (match r.pausedAt with
             | some p => now - p
             | none => 0),
          (ActionRecorder.encode d).1, (ActionRecorder.encode d).2⟩]) ∧
    (∀ (s : ProxyRecordingState) (now : Int) (d : WsData),
      s.recordingPaused = true → onSocketMessageCapture s now d = s) ∧
    (∀ (r : ActionRecorder) (p q t : Int) (d : WsData), r.pausedAt = none →
      (((r.pause p).resume q).capture t d).messages = r.messages ++
        [⟨p - r.startedAt - r.pausedDuration + (t - q),
          (ActionRecorder.encode d).1, (ActionRecorder.encode d).2⟩]) ∧
    ((((⟨0, none, 0, []⟩ : ActionRecorder).pause 200).resume 500).capture 600
        (WsData.str "x")).messages = [⟨300, "x", false⟩] := by
  refine ⟨fun r now d => rfl, fun s now d h => by simp [onSocketMessageCapture, h], ?_, by decide⟩
  intro r p q t d h
  simp only [ActionRecorder.pause, ActionRecorder.resume, ActionRecorder.capture,
    ActionRecorder.getElapsed, h]
  have harith : t - r.startedAt - (r.pausedDuration + (q - p)) - 0 =
      p - r.startedAt - r.pausedDuration + (t - q) := by ring
  rw [harith]

/-- Witness for C4 at the concrete pause/resume schedule of the claim. -/
theorem C4_recorder_timestamps_witness :
    ((⟨true, ⟨0, none, 0, []⟩⟩ : ProxyRecordingState).recordingPaused = true) ∧
    onSocketMessageCapture ⟨true, ⟨0, none, 0, []⟩⟩ 400 (WsData.str "a") =
      ⟨true, ⟨0, none, 0, []⟩⟩ ∧
    ((⟨0, none, 0, []⟩ : ActionRecorder).pausedAt = none) ∧
    ((((⟨0, none, 0, []⟩ : ActionRecorder).pause 200).resume 500).capture 600
        (WsData.str "x")).messages = [] ++
      [⟨200 - 0 - 0 + (600 - 500),
        (ActionRecorder.encode (WsData.str "x")).1, (ActionRecorder.encode (WsData.str "x")).2⟩] :=
  ⟨rfl,
    C4_recorder_timestamps.2.1 ⟨true, ⟨0, none, 0, []⟩⟩ 400 (WsData.str "a") rfl,
    rfl,
    C4_recorder_timestamps.2.2.1 ⟨0, none, 0, []⟩ 200 500 600 (WsData.str "x") rfl⟩

/-! ## Claim C5: persist/load round-trip -/

instance : IsTotal RecordedMessage (fun a b => a.«at» ≤ b.«at») :=
  ⟨fun a b => le_total a.«at» b.«at»⟩

instance : IsTrans RecordedMessage (fun a b => a.«at» ≤ b.«at») :=
  ⟨fun _ _ _ hab hbc => le_trans hab hbc⟩

/-- Claim C5: for a recording whose messages have non-decreasing `at` values,
`load(persist(r))` returns exactly `r`'s message list (base64-encoded binary
payloads included, so the list is equal modulo the base64 round-trip on binary
entries); every loaded list is sorted by `at`; and decoding a captured binary
entry recovers the original bytes. -/
theorem C5_persist_load_roundtrip (r : ActionRecorder) (rid remote createdAt : String)
    (name : Option String) (f : RecordingFile)
    (hsorted : List.Sorted (fun a b => a.«at» ≤ b.«at») r.messages) :
    (ActionRecorder.load (r.persist rid remote createdAt name)).messages = r.messages ∧
    List.Sorted (fun a b => a.«at» ≤ b.«at») (ActionRecorder.load f).messages ∧
    (∀ (atv : Int) (bytes : List Nat), (∀ x ∈ bytes, x < 256) →
      ActionRecorder.decodeMessage
        ⟨atv, (ActionRecorder.encode (WsData.buf bytes)).1,
          (ActionRecorder.encode (WsData.buf bytes)).2⟩ = WsData.buf bytes) := by
  have hmapid : ∀ raw : List RecordedMessage,
      raw.map (fun m => (⟨m.«at», m.data, m.binary⟩ : RecordedMessage)) = raw := by
    intro raw
    have hfun : (fun m : RecordedMessage => (⟨m.«at», m.data, m.binary⟩ : RecordedMessage)) =
        id := rfl
    rw [hfun, List.map_id]
  refine ⟨?_, ?_, ?_⟩
  · show ActionRecorder.loadMessages r.messages = r.messages
    unfold ActionRecorder.loadMessages
    rw [hmapid, List.Sorted.insertionSort_eq hsorted]
  · show List.Sorted _ (ActionRecorder.loadMessages f.messages)
    unfold ActionRecorder.loadMessages
    exact List.sorted_insertionSort _ _
  · intro atv bytes hbytes
    show ActionRecorder.decodeMessage ⟨atv, base64Encode bytes, true⟩ = WsData.buf bytes
    unfold ActionRecorder.decodeMessage
    simp [base64_roundtrip bytes hbytes]

/-- Witness for C5 on a concrete two-message recording (one text entry, one
base64 binary entry for the bytes [104, 105]). -/
theorem C5_persist_load_roundtrip_witness :
    List.Sorted (fun a b => a.«at» ≤ b.«at»)
      ([⟨0, "x", false⟩, ⟨5, "aGk=", true⟩] : List RecordedMessage) ∧
    (ActionRecorder.load
        ((⟨0, none, 0, [⟨0, "x", false⟩, ⟨5, "aGk=", true⟩]⟩ : ActionRecorder).persist
          "demo" "ws://127.0.0.1:8886" "t0" none)).messages =
      [⟨0, "x", false⟩, ⟨5, "aGk=", true⟩] ∧
    (∀ x ∈ [104, 105], x < 256) ∧
    ActionRecorder.decodeMessage
      ⟨5, (ActionRecorder.encode (WsData.buf [104, 105])).1,
        (ActionRecorder.encode (WsData.buf [104, 105])).2⟩ = WsData.buf [104, 105] := by
  have hs : List.Sorted (fun a b => a.«at» ≤ b.«at»)
      ([⟨0, "x", false⟩, ⟨5, "aGk=", true⟩] : List RecordedMessage) := by
    simp [List.sorted_cons]
  refine ⟨hs, ?_, by decide, ?_⟩
  · exact (C5_persist_load_roundtrip ⟨0, none, 0, [⟨0, "x", false⟩, ⟨5, "aGk=", true⟩]⟩
      "demo" "ws://127.0.0.1:8886" "t0" none ⟨"", "", "", none, []⟩ hs).1
  · exact (C5_persist_load_roundtrip ⟨0, none, 0, [⟨0, "x", false⟩, ⟨5, "aGk=", true⟩]⟩
      "demo" "ws://127.0.0.1:8886" "t0" none ⟨"", "", "", none, []⟩ hs).2.2 5 [104, 105]
      (by decide)

/-! ## Multiplexer channel id allocation (`MuxChannel.getNextId`,
`createChannel`, the inbound `CreateChannel` handler, and channel close) -/

/-- The per-channel registry state: the set of live child ids and the
allocation cursor `nextId`. -/
structure MuxChannelState where
  channels : Finset Nat
  nextId : Nat

/-- One step of `getNextId`'s loop, with explicit fuel:
`while (this.channels.has(++this.nextId))` pre-increments and, when the
incremented id is occupied and `>= 0xffffffff`, either throws (second time on
top, `hitTop`) or resets the cursor to 0.  `none` = fuel ran out (never
happens with the fuel below), `some none` = "No available channel id",
`some (some id)` = allocated. -/
def getNextIdGo (channels : Finset Nat) : Nat → Nat → Bool → Option (Option Nat)
  | 0, _, _ => none
  | fuel + 1, nextId, hitTop =>
    if nextId + 1 ∈ channels then
      if nextId + 1 ≥ 4294967295 then
        if hitTop then some none
        else getNextIdGo channels fuel 0 true
      else getNextIdGo channels fuel (nextId + 1) hitTop
    else some (some (nextId + 1))

/-- `getNextId`: every loop iteration except the last lands on an occupied id
and visits each occupied id at most twice (once on each side of the single
wrap), so `2 * card + 3` fuel always suffices. -/
def getNextId (s : MuxChannelState) : Option (Option Nat) :=
  getNextIdGo s.channels (2 * s.channels.card + 3) s.nextId false

/-- `createChannel` (allocation effect only): allocate an id and insert it
into the live-children registry; the cursor rests at the allocated id. -/
def createChannel (s : MuxChannelState) : Option (Option (Nat × MuxChannelState)) :=
  match getNextId s with
  | none => none
  | some none => some none
  | some (some id) => some (some (id, ⟨insert id s.channels, id⟩))

/-- The inbound `CreateChannel` handler: `if (this.nextId < channelId)
this.nextId = channelId`, then the announced child is registered. -/
def onPeerCreateChannel (s : MuxChannelState) (channelId : Nat) : MuxChannelState :=
  { channels := insert channelId s.channels,
    nextId := if s.nextId < channelId then channelId else s.nextId }

/-- Closing (or receiving `CloseChannel` for) a child removes it from the
registry. -/
def closeChannel (s : MuxChannelState) (id : Nat) : MuxChannelState :=
  { s with channels := s.channels.erase id }

/-- The loop only returns ids that are not currently occupied. -/
theorem getNextIdGo_not_mem (channels : Finset Nat) :
    ∀ (fuel nextId : Nat) (hitTop : Bool) (id : Nat),
      getNextIdGo channels fuel nextId hitTop = some (some id) → id ∉ channels := by
  intro fuel
  induction fuel with
  | zero => intro nid ht id h; simp [getNextIdGo] at h
  | succ fuel ih =>
    intro nid ht id h
    simp only [getNextIdGo] at h
    by_cases hmem : nid + 1 ∈ channels
    · rw [if_pos hmem] at h
      by_cases htop : nid + 1 ≥ 4294967295
      · rw [if_pos htop] at h
        cases ht with
        | true => simp at h
        | false => exact ih 0 true id (by simpa using h)
      · rw [if_neg htop] at h
        exact ih (nid + 1) ht id h
    · rw [if_neg hmem] at h
      simp only [Option.some.injEq] at h
      rwa [← h]

/-- Exhaustion, second phase: cursor climbing with `hitTop` set and every id
up to the top occupied ends in the "No available channel id" error. -/
theorem getNextIdGo_full_phase2 (channels : Finset Nat)
    (hfull : ∀ i, 1 ≤ i → i ≤ 4294967295 → i ∈ channels) :
    ∀ (fuel m : Nat), m < 4294967295 → 4294967295 - m ≤ fuel →
      getNextIdGo channels fuel m true = some none := by
  intro fuel
  induction fuel with
  | zero => intro m hm hf; omega
  | succ fuel ih =>
    intro m hm hf
    have hmem : m + 1 ∈ channels := hfull (m + 1) (by omega) (by omega)
    simp only [getNextIdGo, if_pos hmem]
    by_cases htop : m + 1 ≥ 4294967295
    · rw [if_pos htop]
      simp
    · rw [if_neg htop]
      exact ih (m + 1) (by omega) (by omega)

/-- Exhaustion, first phase: climb to the top, wrap once, then phase 2. -/
theorem getNextIdGo_full_phase1 (channels : Finset Nat)
    (hfull : ∀ i, 1 ≤ i → i ≤ 4294967295 → i ∈ channels) :
    ∀ (fuel m : Nat), m < 4294967295 → (4294967295 - m) + 4294967295 ≤ fuel →
      getNextIdGo channels fuel m false = some none := by
  intro fuel
  induction fuel with
  | zero => intro m hm hf; omega
  | succ fuel ih =>
    intro m hm hf
    have hmem : m + 1 ∈ channels := hfull (m + 1) (by omega) (by omega)
    simp only [getNextIdGo, if_pos hmem]
    by_cases htop : m + 1 ≥ 4294967295
    · rw [if_pos htop]
      simp only [Bool.false_eq_true, if_false]
      exact getNextIdGo_full_phase2 channels hfull fuel 0 (by omega) (by omega)
    · rw [if_neg htop]
      exact ih (m + 1) (by omega) (by omega)

/-- Counterexample for C6's "wrap-around at 2^32": after the peer announces
child id 0xffffffff = 2^32 - 1 (which sets the local cursor there) and that
child closes again, the next local allocation returns 2^32 without wrapping —
an id outside the u32 range (its little-endian u32 wire encoding is 0, the
root id).  The claimed wrap-around at 2^32 therefore does not happen. -/
theorem C6_allocation_wrap_counterexample :
    getNextId (closeChannel (onPeerCreateChannel ⟨∅, 0⟩ 4294967295) 4294967295) =
      some (some 4294967296) ∧
    ¬ 4294967296 < 4294967296 := by
  constructor
  · decide
  · decide

/-- Claim C6 (amended): locally allocated child ids are never equal to a
currently live child id (uniqueness within the parent; an allocated id is
registered, so it cannot be re-allocated before close); when every id in
1..2^32-1 is occupied and the cursor is below 2^32-1, allocation fails with
the exhaustion error after a full wrap; a peer-announced id larger than the
local cursor advances the cursor to it, so the next local allocation differs
from it.  Wrap-around happens only when the incremented cursor lands on an
occupied id at 2^32-1; once the cursor reaches 2^32-1 a later allocation
returns ids at and beyond 2^32 without wrapping. -/
theorem C6_channel_id_allocation :
    (∀ (s : MuxChannelState) (aid : Nat), getNextId s = some (some aid) → aid ∉ s.channels) ∧
    (∀ (s : MuxChannelState) (aid : Nat) (s2 : MuxChannelState),
      createChannel s = some (some (aid, s2)) →
        aid ∉ s.channels ∧ s2.channels = insert aid s.channels ∧ aid ∈ s2.channels) ∧
    (∀ s : MuxChannelState, (∀ i, 1 ≤ i → i ≤ 4294967295 → i ∈ s.channels) →
      s.nextId < 4294967295 → getNextId s = some none) ∧
    (∀ (s : MuxChannelState) (cid : Nat), s.nextId < cid →
      (onPeerCreateChannel s cid).nextId = cid ∧
        cid ∈ (onPeerCreateChannel s cid).channels) ∧
    (∀ (s : MuxChannelState) (cid aid : Nat),
      getNextId (onPeerCreateChannel s cid) = some (some aid) → aid ≠ cid) := by
  have hpost : ∀ (s : MuxChannelState) (aid : Nat),
      getNextId s = some (some aid) → aid ∉ s.channels :=
    fun s aid h => getNextIdGo_not_mem s.channels _ s.nextId false aid h
  refine ⟨hpost, ?_, ?_, ?_, ?_⟩
  · intro s aid s2 h
    unfold createChannel at h
    cases hg : getNextId s with
    | none => rw [hg] at h; simp at h
    | some o =>
      cases o with
      | none => rw [hg] at h; simp at h
      | some i =>
        rw [hg] at h
        simp only [Option.some.injEq, Prod.mk.injEq] at h
        obtain ⟨rfl, rfl⟩ := h
        exact ⟨hpost s i hg, rfl, Finset.mem_insert_self i s.channels⟩
  · intro s hfull hn
    unfold getNextId
    have hsub : Finset.Icc 1 4294967295 ⊆ s.channels := by
      intro i hi
      rw [Finset.mem_Icc] at hi
      exact hfull i hi.1 hi.2
    have hcard : 4294967295 ≤ s.channels.card := by
      have hc := Finset.card_le_card hsub
      rwa [Nat.card_Icc] at hc
    exact getNextIdGo_full_phase1 s.channels hfull _ s.nextId hn (by omega)
  · intro s cid hlt
    refine ⟨?_, Finset.mem_insert_self cid s.channels⟩
    simp [onPeerCreateChannel, hlt]
  · intro s cid aid h
    intro heq
    have hni := hpost _ aid h
    rw [heq] at hni
    exact hni (Finset.mem_insert_self cid s.channels)

/-- Witness for C6 (amended): uniqueness at a small concrete registry,
exhaustion on the fully occupied range 1..2^32-1, and a peer announcement. -/
theorem C6_channel_id_allocation_witness :
    (getNextId ⟨{1, 2}, 0⟩ = some (some 3) ∧ 3 ∉ ({1, 2} : Finset Nat)) ∧
    ((∀ i, 1 ≤ i → i ≤ 4294967295 → i ∈ Finset.Icc 1 4294967295) ∧
      (0 : Nat) < 4294967295 ∧
      getNextId ⟨Finset.Icc 1 4294967295, 0⟩ = some none) ∧
    ((0 : Nat) < 5 ∧ (onPeerCreateChannel ⟨∅, 0⟩ 5).nextId = 5 ∧
      5 ∈ (onPeerCreateChannel ⟨∅, 0⟩ 5).channels) := by
  have h1 : getNextId ⟨{1, 2}, 0⟩ = some (some 3) := by decide
  have hfull : ∀ i, 1 ≤ i → i ≤ 4294967295 → i ∈ Finset.Icc 1 4294967295 :=
    fun i h1 h2 => Finset.mem_Icc.mpr ⟨h1, h2⟩
  refine ⟨⟨h1, C6_channel_id_allocation.1 ⟨{1, 2}, 0⟩ 3 h1⟩,
    ⟨hfull, by decide, C6_channel_id_allocation.2.2.1 ⟨Finset.Icc 1 4294967295, 0⟩ hfull
      (by decide)⟩,
    ⟨by decide, (C6_channel_id_allocation.2.2.2.1 ⟨∅, 0⟩ 5 (by decide)).1,
      (C6_channel_id_allocation.2.2.2.1 ⟨∅, 0⟩ 5 (by decide)).2⟩⟩

/-! ## Multiplexer send paths (`MuxChannel.send` / `sendData` / `_send` and
the open-event flush listener) -/

/-- Payloads accepted by `send` (strings or byte buffers). -/
inductive MuxWireData where
  | str (s : String)
  | bin (b : List Nat)
  deriving DecidableEq, Repr

inductive MuxSendError where
  | invalidState
  deriving DecidableEq, Repr

/-- UTF-8 bytes of a string (`TextEncoder.encode`). -/
def utf8Bytes (s : String) : List Nat := s.toUTF8.toList.map (fun b => b.toNat)

/-- Root `_send`: forward when OPEN, queue at the end of `storage` while the
raw WebSocket is CONNECTING, otherwise throw "Socket is already in CLOSING or
CLOSED state".  Returns the updated queue and the frame put on the wire. -/
def rootSend (state : WsReadyState) (storage : List MuxWireData) (d : MuxWireData) :
    Except MuxSendError (List MuxWireData × Option MuxWireData) :=
  match state with
  | .OPEN => .ok (storage, some d)
  | .CONNECTING => .ok (storage ++ [d], none)
  | _ => .error .invalidState

/-- A child's `send` wraps the payload into a `RawStringData`/`RawBinaryData`
frame addressed at the child's id (which the parent then forwards). -/
def wrapChildSend (channelId : Nat) (d : MuxWireData) : List Nat :=
  match d with
  | .str s => MuxMessage.createBuffer MuxRawStringData channelId (utf8Bytes s)
  | .bin b => MuxMessage.createBuffer MuxRawBinaryData channelId b

/-- `send` on a depth-1 child: the source branches on
`this.ws instanceof MuxChannel` and immediately delegates the wrapped frame to
the parent; the child's own `readyState` is never consulted. -/
def childSend (childState : WsReadyState) (rootState : WsReadyState)
    (storage : List MuxWireData) (channelId : Nat) (d : MuxWireData) :
    Except MuxSendError (List MuxWireData × Option MuxWireData) :=
  rootSend rootState storage (MuxWireData.bin (wrapChildSend channelId d))

/-- The constructor's `open` listener: copy `storage`, clear it, and `_send`
each entry in order with the channel now OPEN; returns the wire output. -/
def flushOnOpen (storage : List MuxWireData) : List MuxWireData :=
  storage.foldl (fun acc d =>
    match rootSend WsReadyState.OPEN [] d with
    | .ok (_, some x) => acc ++ [x]
    | _ => acc) []

theorem flushOnOpen_drains_in_order (storage : List MuxWireData) :
    flushOnOpen storage = storage := by
  have hgen : ∀ (l acc : List MuxWireData),
      l.foldl (fun acc d => acc ++ [d]) acc = acc ++ l := by
    intro l
    induction l with
    | nil => intro acc; simp
    | cons d l ih =>
      intro acc
      simp only [List.foldl_cons]
      rw [ih]
      simp
  unfold flushOnOpen
  simp only [rootSend]
  rw [hgen]
  simp

/-! ## Claim C7: channel send behavior per ready state -/

/-- Counterexample for C7: a send on a CLOSED child channel whose root is OPEN
does not fail with an invalid-state error — it succeeds, putting the wrapped
Raw frame on the wire, because the child branch of `send` never checks the
child's own ready state. -/
theorem C7_send_closed_child_counterexample :
    childSend WsReadyState.CLOSED WsReadyState.OPEN [] 1 (MuxWireData.bin [7]) =
      .ok ([], some (MuxWireData.bin (wrapChildSend 1 (MuxWireData.bin [7])))) ∧
    childSend WsReadyState.CLOSED WsReadyState.OPEN [] 1 (MuxWireData.bin [7]) ≠
      .error MuxSendError.invalidState := by
  refine ⟨rfl, fun h => ?_⟩
  rw [show childSend WsReadyState.CLOSED WsReadyState.OPEN [] 1 (MuxWireData.bin [7]) =
    Except.ok ([], some (MuxWireData.bin (wrapChildSend 1 (MuxWireData.bin [7])))) from rfl] at h
  exact Except.noConfusion h

/-- Claim C7 (amended): for the ROOT channel, a send while the underlying
WebSocket is CONNECTING is appended to the FIFO queue and the queue is drained
in order when the socket reaches OPEN; a root send while CLOSING or CLOSED
fails with an invalid-state error.  A child channel's send ignores the
child's own ready state entirely: it wraps the payload in a Raw frame and
delegates it to the root, succeeding or queueing according to the root's
state even when the child is CLOSING or CLOSED. -/
theorem C7_channel_send_states :
    (∀ (storage : List MuxWireData) (d : MuxWireData),
      rootSend WsReadyState.OPEN storage d = .ok (storage, some d)) ∧
    (∀ (storage : List MuxWireData) (d : MuxWireData),
      rootSend WsReadyState.CONNECTING storage d = .ok (storage ++ [d], none)) ∧
    (∀ (storage : List MuxWireData) (d : MuxWireData),
      rootSend WsReadyState.CLOSING storage d = .error MuxSendError.invalidState ∧
      rootSend WsReadyState.CLOSED storage d = .error MuxSendError.invalidState) ∧
    (∀ storage : List MuxWireData, flushOnOpen storage = storage) ∧
    (∀ (cs cs2 rs : WsReadyState) (storage : List MuxWireData) (cid : Nat) (d : MuxWireData),
      childSend cs rs storage cid d = childSend cs2 rs storage cid d) ∧
    (∀ (storage : List MuxWireData) (cid : Nat) (d : MuxWireData),
      childSend WsReadyState.CLOSED WsReadyState.OPEN storage cid d =
        .ok (storage, some (MuxWireData.bin (wrapChildSend cid d)))) :=
  ⟨fun _ _ => rfl, fun _ _ => rfl, fun _ _ => ⟨rfl, rfl⟩,
    flushOnOpen_drains_in_order, fun _ _ _ _ _ _ => rfl, fun _ _ _ => rfl⟩

/-! ## Wi-Fi mode switch (`POST /api/devices/connect`, Wi-Fi branch of
`processItem` in `HttpServer.ts`)

String helpers model the JavaScript operations used there
(`toLowerCase` restricted to ASCII, `includes`, `split(':')`,
`parseInt(…, 10)`); all are written over char lists so they evaluate in the
kernel. -/

def asciiLower (c : Char) : Char :=
  if 65 ≤ c.toNat ∧ c.toNat ≤ 90 then Char.ofNat (c.toNat + 32) else c

/-- JavaScript `s.toLowerCase()` (the adb outputs involved are ASCII). -/
def jsToLower (s : String) : String := String.mk (s.toList.map asciiLower)

def startsWithSeq : List Char → List Char → Bool
  | [], _ => true
  | _ :: _, [] => false
  | a :: as, b :: bs => a == b && startsWithSeq as bs

def includesSeq (pat : List Char) : List Char → Bool
  | [] => pat.isEmpty
  | b :: bs => startsWithSeq pat (b :: bs) || includesSeq pat bs

/-- JavaScript `s.includes(pat)`. -/
def jsIncludes (s pat : String) : Bool := includesSeq pat.toList s.toList

def splitColonAux : List Char → List Char → List String
  | [], acc => [String.mk acc.reverse]
  | c :: rest, acc =>
    if c = ':' then String.mk acc.reverse :: splitColonAux rest []
    else splitColonAux rest (c :: acc)

/-- JavaScript `s.split(':')`. -/
def jsSplitColon (s : String) : List String := splitColonAux s.toList []

/-- JavaScript `parseInt(s, 10)`: parse the leading digit run; `none` = NaN. -/
def jsParseInt (s : String) : Option Nat :=
  match s.toList.takeWhile Char.isDigit with
  | [] => none
  | ds => some (ds.foldl (fun n c => n * 10 + (c.toNat - 48)) 0)

/-- `typeof portRaw === 'number' && portRaw > 0 ? portRaw : undefined`. -/
def portFromBodyOf (portRaw : Option Int) : Option Nat :=
  match portRaw with
  | some p => if p > 0 then some p.toNat else none
  | none => none

/-- `deviceStr.includes(':') && deviceStr.split(':')[1] ?
parseInt(deviceStr.split(':')[1], 10) || undefined : undefined`
(`|| undefined` turns both NaN and 0 into undefined). -/
def portFromDevice (deviceStr : String) : Option Nat :=
  if jsIncludes deviceStr ":" then
    match (jsSplitColon deviceStr).get? 1 with
    | some p =>
      if p ≠ "" then
        match jsParseInt p with
        | some n => if n = 0 then none else some n
        | none => none
      else none
    | none => none
  else none

/-- `portFromBody ?? portFromDevice ?? 5555`. -/
def targetPort (deviceStr : String) (portFromBody : Option Nat) : Nat :=
  portFromBody.getD ((portFromDevice deviceStr).getD 5555)

/-- `deviceStr.includes(':') ? deviceStr.split(':')[0] : ''`. -/
def hostPart (deviceStr : String) : String :=
  if jsIncludes deviceStr ":" then (jsSplitColon deviceStr).headD "" else ""

/-- Target resolution: `<host>:<port>` when the device id carries a host,
otherwise `<resolved-ip>:<port>`; `none` models the thrown
"Unable to resolve device ip". -/
def resolveWifiTarget (deviceStr : String) (ipLookup : Option String) (port : Nat) :
    Option String :=
  if hostPart deviceStr ≠ "" then some (hostPart deviceStr ++ ":" ++ toString port)
  else
    match ipLookup with
    | some ip => some (ip ++ ":" ++ toString port)
    | none => none

/-- Commands and waits issued by the Wi-Fi switch, in order. -/
inductive AdbEvent where
  | tcpip (device : String) (port : Nat)
  | delayMs (n : Nat)
  | connect (target : String)
  deriving DecidableEq, Repr

/-- Success test on one `adb connect` output:
`out.toLowerCase().includes('connected to') ||
out.toLowerCase().includes('already connected')`. -/
def acceptOutput (out : String) : Bool :=
  jsIncludes (jsToLower out) "connected to" || jsIncludes (jsToLower out) "already connected"

/-- Whether attempt `i`'s outcome (command output, or a thrown error) is
accepted. -/
def acceptAttempt : Except String String → Bool
  | .ok out => acceptOutput out
  | .error _ => false

def lastMsg : Except String String → String
  | .ok out => out
  | .error m => m

/-- The retry loop `for (let i = 0; i < 3 && !connected; i++)`: run
`adb connect`, accept on matching output and break, otherwise remember the
message and `await delay(400)` before the next iteration (the delay also runs
after the final failed attempt). -/
def wifiAttempts (outcomes : Nat → Except String String) (target : String) :
    Nat → Nat → Option String → List AdbEvent × Bool × Option String
  | 0, _, last => ([], false, last)
  | k + 1, i, _ =>
    match outcomes i with
    | .ok out =>
      if acceptOutput out then ([AdbEvent.connect target], true, some out)
      else
        (AdbEvent.connect target :: AdbEvent.delayMs 400 ::
            (wifiAttempts outcomes target k (i + 1) (some out)).1,
          (wifiAttempts outcomes target k (i + 1) (some out)).2.1,
          (wifiAttempts outcomes target k (i + 1) (some out)).2.2)
    | .error m =>
      (AdbEvent.connect target :: AdbEvent.delayMs 400 ::
          (wifiAttempts outcomes target k (i + 1) (some m)).1,
        (wifiAttempts outcomes target k (i + 1) (some m)).2.1,
        (wifiAttempts outcomes target k (i + 1) (some m)).2.2)

/-- `connectOverWifi`: `adb tcpip <port>`, `delay(400)`, then up to 3 connect
attempts; on failure throw the last message. -/
def connectOverWifi (uuid target : String) (port : Nat)
    (outcomes : Nat → Except String String) :
    List AdbEvent × Except (Option String) Unit :=
  (AdbEvent.tcpip uuid port :: AdbEvent.delayMs 400 ::
      (wifiAttempts outcomes target 3 0 none).1,
    if (wifiAttempts outcomes target 3 0 none).2.1 then Except.ok ()
    else Except.error (wifiAttempts outcomes target 3 0 none).2.2)

def TIMEOUT_MS : Nat := 10000

/-- The `Promise.race` with the 10 s timer: if the switch has not settled by
`TIMEOUT_MS`, the per-device result is the timeout error. -/
def raceWithTimeout (elapsedMs : Nat) (result : Except (Option String) Unit) :
    Except (Option String) Unit :=
  if TIMEOUT_MS ≤ elapsedMs then
    Except.error (some "WiFi connection timed out after 10 seconds")
  else result

/-! ## Claim C9: Wi-Fi mode switch schedule -/

/-- Counterexample for C9: with the first connect attempt failing and the
second succeeding, the event between the two attempts is a 400 ms delay, not
the claimed 200 ms. -/
theorem C9_wifi_delay_counterexample :
    (connectOverWifi "SER" "192.168.1.7:5555" 5555
        (fun i => if i = 0 then Except.ok "failed to authenticate"
          else Except.ok "connected to 192.168.1.7:5555")).1 =
      [AdbEvent.tcpip "SER" 5555, AdbEvent.delayMs 400,
        AdbEvent.connect "192.168.1.7:5555", AdbEvent.delayMs 400,
        AdbEvent.connect "192.168.1.7:5555"] ∧
    AdbEvent.delayMs 400 ≠ AdbEvent.delayMs 200 := by
  constructor
  · decide
  · decide

theorem wifiAttempts_step_accept (o : Nat → Except String String) (t : String)
    (k i : Nat) (last : Option String) (h : acceptAttempt (o i) = true) :
    wifiAttempts o t (k + 1) i last = ([AdbEvent.connect t], true, some (lastMsg (o i))) := by
  cases ho : o i with
  | ok out =>
    rw [ho] at h
    have ha : acceptOutput out = true := h
    simp [wifiAttempts, ho, ha, lastMsg]
  | error m =>
    rw [ho] at h
    simp [acceptAttempt] at h

theorem wifiAttempts_step_reject (o : Nat → Except String String) (t : String)
    (k i : Nat) (last : Option String) (h : acceptAttempt (o i) = false) :
    wifiAttempts o t (k + 1) i last =
      (AdbEvent.connect t :: AdbEvent.delayMs 400 ::
          (wifiAttempts o t k (i + 1) (some (lastMsg (o i)))).1,
        (wifiAttempts o t k (i + 1) (some (lastMsg (o i)))).2.1,
        (wifiAttempts o t k (i + 1) (some (lastMsg (o i)))).2.2) := by
  cases ho : o i with
  | ok out =>
    rw [ho] at h
    have ha : acceptOutput out = false := h
    simp [wifiAttempts, ho, ha, lastMsg]
  | error m =>
    simp [wifiAttempts, ho, lastMsg]

/-- Claim C9 (amended): the Wi-Fi switch resolves
`target = <host|resolved-ip>:<port|5555>` (body port first, then the port in
the device id, then 5555), issues `adb tcpip`, waits 400 ms, then makes up to
3 `adb connect` attempts with 400 ms — not 200 ms — between attempts,
accepting exactly when the lowercased output contains "connected to" or
"already connected"; if all 3 attempts fail the switch errors with the last
message, and the whole switch races a 10 s deadline whose expiry yields a
per-device timeout error. -/
theorem C9_wifi_switch (deviceStr uuid t ip : String) (p : Nat)
    (ipOpt : Option String) (outcomes : Nat → Except String String)
    (elapsed : Nat) (result : Except (Option String) Unit) :
    (targetPort deviceStr (some p) = p) ∧
    (targetPort deviceStr none = (portFromDevice deviceStr).getD 5555) ∧
    (hostPart deviceStr ≠ "" →
      resolveWifiTarget deviceStr ipOpt p = some (hostPart deviceStr ++ ":" ++ toString p)) ∧
    (hostPart deviceStr = "" →
      resolveWifiTarget deviceStr (some ip) p = some (ip ++ ":" ++ toString p)) ∧
    (acceptAttempt (outcomes 0) = true →
      connectOverWifi uuid t p outcomes =
        ([AdbEvent.tcpip uuid p, AdbEvent.delayMs 400, AdbEvent.connect t],
          Except.ok ())) ∧
    (acceptAttempt (outcomes 0) = false → acceptAttempt (outcomes 1) = true →
      connectOverWifi uuid t p outcomes =
        ([AdbEvent.tcpip uuid p, AdbEvent.delayMs 400, AdbEvent.connect t,
          AdbEvent.delayMs 400, AdbEvent.connect t], Except.ok ())) ∧
    (acceptAttempt (outcomes 0) = false → acceptAttempt (outcomes 1) = false →
      acceptAttempt (outcomes 2) = true →
      connectOverWifi uuid t p outcomes =
        ([AdbEvent.tcpip uuid p, AdbEvent.delayMs 400, AdbEvent.connect t,
          AdbEvent.delayMs 400, AdbEvent.connect t, AdbEvent.delayMs 400,
          AdbEvent.connect t], Except.ok ())) ∧
    (acceptAttempt (outcomes 0) = false → acceptAttempt (outcomes 1) = false →
      acceptAttempt (outcomes 2) = false →
      connectOverWifi uuid t p outcomes =
        ([AdbEvent.tcpip uuid p, AdbEvent.delayMs 400, AdbEvent.connect t,
          AdbEvent.delayMs 400, AdbEvent.connect t, AdbEvent.delayMs 400,
          AdbEvent.connect t, AdbEvent.delayMs 400],
          Except.error (some (lastMsg (outcomes 2))))) ∧
    (TIMEOUT_MS ≤ elapsed →
      raceWithTimeout elapsed result =
        Except.error (some "WiFi connection timed out after 10 seconds")) ∧
    (elapsed < TIMEOUT_MS → raceWithTimeout elapsed result = result) := by
  refine ⟨rfl, rfl, ?_, ?_, ?_, ?_, ?_, ?_, ?_, ?_⟩
  · intro h
    simp [resolveWifiTarget, h]
  · intro h
    simp [resolveWifiTarget, h]
  · intro h0
    unfold connectOverWifi
    rw [wifiAttempts_step_accept outcomes t 2 0 none h0]
    simp
  · intro h0 h1
    unfold connectOverWifi
    rw [wifiAttempts_step_reject outcomes t 2 0 none h0,
      wifiAttempts_step_accept outcomes t 1 1 (some (lastMsg (outcomes 0))) h1]
    simp
  · intro h0 h1 h2
    unfold connectOverWifi
    rw [wifiAttempts_step_reject outcomes t 2 0 none h0,
      wifiAttempts_step_reject outcomes t 1 1 (some (lastMsg (outcomes 0))) h1,
      wifiAttempts_step_accept outcomes t 0 2 (some (lastMsg (outcomes 1))) h2]
    simp
  · intro h0 h1 h2
    unfold connectOverWifi
    rw [wifiAttempts_step_reject outcomes t 2 0 none h0,
      wifiAttempts_step_reject outcomes t 1 1 (some (lastMsg (outcomes 0))) h1,
      wifiAttempts_step_reject outcomes t 0 2 (some (lastMsg (outcomes 1))) h2]
    simp [wifiAttempts]
  · intro h
    simp [raceWithTimeout, h]
  · intro h
    simp [raceWithTimeout, Nat.not_le.mpr h]

/-- Witness for C9 (amended) at concrete inputs: a device id carrying a host
part, a first-attempt success, and an expired deadline. -/
theorem C9_wifi_switch_witness :
    (hostPart "192.168.1.7:5555" ≠ "") ∧
    resolveWifiTarget "192.168.1.7:5555" none 5555 =
      some (hostPart "192.168.1.7:5555" ++ ":" ++ toString 5555) ∧
    (acceptAttempt ((fun _ => Except.ok "connected to 192.168.1.7:5555") 0) = true) ∧
    connectOverWifi "SER" "192.168.1.7:5555" 5555
        (fun _ => Except.ok "connected to 192.168.1.7:5555") =
      ([AdbEvent.tcpip "SER" 5555, AdbEvent.delayMs 400,
        AdbEvent.connect "192.168.1.7:5555"], Except.ok ()) ∧
    (TIMEOUT_MS ≤ 10000) ∧
    raceWithTimeout 10000 (Except.ok ()) =
      Except.error (some "WiFi connection timed out after 10 seconds") := by
  have h1 : hostPart "192.168.1.7:5555" ≠ "" := by decide
  have h2 : acceptAttempt ((fun _ => Except.ok "connected to 192.168.1.7:5555")
      (0 : Nat)) = true := by decide
  have h3 : TIMEOUT_MS ≤ 10000 := by decide
  exact ⟨h1,
    (C9_wifi_switch "192.168.1.7:5555" "SER" "192.168.1.7:5555" "" 5555 none
      (fun _ => Except.ok "connected to 192.168.1.7:5555") 10000 (Except.ok ())).2.2.1 h1,
    h2,
    (C9_wifi_switch "192.168.1.7:5555" "SER" "192.168.1.7:5555" "" 5555 none
      (fun _ => Except.ok "connected to 192.168.1.7:5555") 10000 (Except.ok ())).2.2.2.2.1 h2,
    h3,
    (C9_wifi_switch "192.168.1.7:5555" "SER" "192.168.1.7:5555" "" 5555 none
      (fun _ => Except.ok "connected to 192.168.1.7:5555") 10000
      (Except.ok ())).2.2.2.2.2.2.2.2.1 h3⟩
